import Mathlib

/-!
django-pg-migration-tools: verification of the spec's claims

A shallow embedding of the parts of `django_pg_migration_tools` that the
frozen claims are about:

* `operations.py`: `build_postgres_identifier`, `NullsManager.set_not_null`,
  `SafeIndexOperationManager.safer_create_index`,
  `SafeConstraintOperationManager.create_constraint`,
  `ForeignKeyManager.add_fk_field`;
* `timeouts.py`: `apply_timeouts` and its validation / classification /
  reset behaviour;
* `management/commands/migrate_with_timeouts.py` (duplicated verbatim in
  `timeout_retries.py`): `MigrateRetryStrategy` and `Command.handle`'s
  retry loop.

Database side effects are modelled as explicit state records plus traces of
issued statements.  Python machine arithmetic is `Nat`/`Int` with explicit
`% 2^32` where the source's arithmetic wraps (the md5 hash used by the
identifier builder).  Strings are modelled as Lean `String`s; where the
source measures `len()` of a Python `str`, the model uses the character
count, which agrees with the byte count on the ASCII inputs used throughout.
-/

/-! ## MD5 (`hashlib.md5(...).hexdigest()`)

`build_postgres_identifier` calls `hashlib.md5(base_name.encode())` and
takes the first 8 hex characters of the digest.  The algorithm below is the
standard MD5 over a byte list, with all 32-bit operations performed on
`Nat` modulo `2^32`.  It is validated against the repository's own test
vector (`test_longer_than_63_char` expects hash prefix `bbeb3ff7`). -/

namespace Md5

def M32 : Nat := 4294967296

/-- The 64 round constants `K[i] = floor(abs(sin(i+1)) * 2^32)`. -/
def K : List Nat :=
  [0xd76aa478, 0xe8c7b756, 0x242070db, 0xc1bdceee,
   0xf57c0faf, 0x4787c62a, 0xa8304613, 0xfd469501,
   0x698098d8, 0x8b44f7af, 0xffff5bb1, 0x895cd7be,
   0x6b901122, 0xfd987193, 0xa679438e, 0x49b40821,
   0xf61e2562, 0xc040b340, 0x265e5a51, 0xe9b6c7aa,
   0xd62f105d, 0x02441453, 0xd8a1e681, 0xe7d3fbc8,
   0x21e1cde6, 0xc33707d6, 0xf4d50d87, 0x455a14ed,
   0xa9e3e905, 0xfcefa3f8, 0x676f02d9, 0x8d2a4c8a,
   0xfffa3942, 0x8771f681, 0x6d9d6122, 0xfde5380c,
   0xa4beea44, 0x4bdecfa9, 0xf6bb4b60, 0xbebfbc70,
   0x289b7ec6, 0xeaa127fa, 0xd4ef3085, 0x04881d05,
   0xd9d4d039, 0xe6db99e5, 0x1fa27cf8, 0xc4ac5665,
   0xf4292244, 0x432aff97, 0xab9423a7, 0xfc93a039,
   0x655b59c3, 0x8f0ccc92, 0xffeff47d, 0x85845dd1,
   0x6fa87e4f, 0xfe2ce6e0, 0xa3014314, 0x4e0811a1,
   0xf7537e82, 0xbd3af235, 0x2ad7d2bb, 0xeb86d391]

/-- The per-round left-rotation amounts. -/
def S : List Nat :=
  [7, 12, 17, 22, 7, 12, 17, 22, 7, 12, 17, 22, 7, 12, 17, 22,
   5, 9, 14, 20, 5, 9, 14, 20, 5, 9, 14, 20, 5, 9, 14, 20,
   4, 11, 16, 23, 4, 11, 16, 23, 4, 11, 16, 23, 4, 11, 16, 23,
   6, 10, 15, 21, 6, 10, 15, 21, 6, 10, 15, 21, 6, 10, 15, 21]

/-- 32-bit left rotation of `x` (assumed `< 2^32`) by `n` bits. -/
def rotl (x n : Nat) : Nat := ((x <<< n) % M32) ||| (x >>> (32 - n))

/-- 32-bit bitwise complement. -/
def bnot32 (x : Nat) : Nat := x ^^^ 0xffffffff

/-- Round function and message-word index for round `i`. -/
def fg (i b c d : Nat) : Nat × Nat :=
  if i < 16 then ((b &&& c) ||| (bnot32 b &&& d), i)
  else if i < 32 then ((d &&& b) ||| (bnot32 d &&& c), (5 * i + 1) % 16)
  else if i < 48 then (b ^^^ c ^^^ d, (3 * i + 5) % 16)
  else (c ^^^ (b ||| bnot32 d), (7 * i) % 16)

/-- One MD5 round: state `(a, b, c, d)` to the next state. -/
def md5Round (M : List Nat) (st : Nat × Nat × Nat × Nat) (i : Nat) :
    Nat × Nat × Nat × Nat :=
  let (a, b, c, d) := st
  let (f, g) := fg i b c d
  let f' := (f + a + K.getD i 0 + M.getD g 0) % M32
  (d, (b + rotl f' (S.getD i 0)) % M32, b, c)

/-- Process one 512-bit chunk, given as its 16 little-endian 32-bit words. -/
def processChunk (st : Nat × Nat × Nat × Nat) (M : List Nat) :
    Nat × Nat × Nat × Nat :=
  let (a0, b0, c0, d0) := st
  let (a, b, c, d) := (List.range 64).foldl (md5Round M) (a0, b0, c0, d0)
  ((a0 + a) % M32, (b0 + b) % M32, (c0 + c) % M32, (d0 + d) % M32)

/-- The 8 little-endian bytes of a 64-bit length field. -/
def le64 (n : Nat) : List Nat := (List.range 8).map fun i => (n >>> (8 * i)) % 256

/-- MD5 padding: `0x80`, zeros to 56 mod 64, then the bit length. -/
def padMessage (msg : List Nat) : List Nat :=
  let z := (120 - ((msg.length + 1) % 64)) % 64
  msg ++ [0x80] ++ List.replicate z 0 ++ le64 ((msg.length * 8) % (2 ^ 64))

/-- Split a byte list into 64-byte chunks (fuel-based structural recursion
so the kernel can evaluate it; each step consumes at least one element, so
fuel equal to the list length always suffices). -/
def toChunksF : Nat → List Nat → List (List Nat)
  | _, [] => []
  | 0, _ => []
  | fuel + 1, a :: rest => ((a :: rest).take 64) :: toChunksF fuel ((a :: rest).drop 64)

/-- Split a byte list into 64-byte chunks. -/
def toChunks (l : List Nat) : List (List Nat) := toChunksF l.length l

/-- The `i`-th little-endian 32-bit word of a chunk. -/
def wordAt (bs : List Nat) (i : Nat) : Nat :=
  bs.getD (4 * i) 0 + bs.getD (4 * i + 1) 0 * 256 +
    bs.getD (4 * i + 2) 0 * 65536 + bs.getD (4 * i + 3) 0 * 16777216

/-- The 16 words of a 64-byte chunk. -/
def chunkWords (bs : List Nat) : List Nat := (List.range 16).map (wordAt bs)

/-- MD5 of a byte list, as the four final 32-bit state words. -/
def md5Words (msg : List Nat) : Nat × Nat × Nat × Nat :=
  (toChunks (padMessage msg)).foldl (fun st chunk => processChunk st (chunkWords chunk))
    (0x67452301, 0xefcdab89, 0x98badcfe, 0x10325476)

/-- The 4 little-endian bytes of a 32-bit word. -/
def wordLE (w : Nat) : List Nat :=
  [w % 256, w / 256 % 256, w / 65536 % 256, w / 16777216 % 256]

/-- The 16 digest bytes. -/
def md5Bytes (msg : List Nat) : List Nat :=
  let (a, b, c, d) := md5Words msg
  wordLE a ++ wordLE b ++ wordLE c ++ wordLE d

/-- Lowercase hex digit. -/
def hexDigitChar (n : Nat) : Char :=
  if n < 10 then Char.ofNat (48 + n) else Char.ofNat (87 + n)

/-- Two lowercase hex characters of a byte. -/
def byteHex (b : Nat) : List Char := [hexDigitChar (b / 16), hexDigitChar (b % 16)]

/-- Model of `hashlib.md5(bytes).hexdigest()`: 32 lowercase hex characters. -/
def hexdigest (msg : List Nat) : String := ⟨((md5Bytes msg).map byteHex).flatten⟩

end Md5

/-- The UTF-8 bytes of a string; equals codepoints for the ASCII strings the
claims use (`str.encode()` in the source). -/
def strBytes (s : String) : List Nat := s.data.map Char.toNat

/-! ## `build_postgres_identifier` (operations.py lines 144-178)

```python
def build_postgres_identifier(items: list[str], suffix: str) -> str:
    base_name = "_".join(items + [suffix])
    if len(base_name) <= MAX_POSTGRES_IDENTIFIER_LEN:
        return base_name
    hash_len = 8
    hash_obj = hashlib.md5(base_name.encode())
    hash_val = hash_obj.hexdigest()[:hash_len]
    chop_threshold = MAX_POSTGRES_IDENTIFIER_LEN - (len(suffix) + hash_len + 2)
    chopped_name = base_name[:chop_threshold]
    return f"\x7bchopped_name\x7d_\x7bhash_val\x7d_\x7bsuffix\x7d"
```

`len` on a Python `str` counts characters; the embedding uses `String.length`
(codepoints), which equals the byte count for ASCII inputs.  `chop_threshold`
can be negative, in which case Python's `base_name[:chop_threshold]` drops
that many characters from the *end* — `pyTake` reproduces exactly that. -/

def MAX_POSTGRES_IDENTIFIER_LEN : Nat := 63

/-- Model of Python's `s[:k]` for an `int` `k` that may be negative. -/
def pyTake (s : String) (k : Int) : String :=
  if k < 0 then ⟨s.data.take (s.length - k.natAbs)⟩ else ⟨s.data.take k.toNat⟩

/-- Model of `hashlib.md5(s.encode()).hexdigest()[:8]`: the 8-hex-character
content hash the identifier builder appends. -/
def md5hex8 (s : String) : String := ⟨(Md5.hexdigest (strBytes s)).data.take 8⟩

/-- Model of `"_".join(items + [suffix])`. -/
def joinedName (items : List String) (suffix : String) : String :=
  String.intercalate "_" (items ++ [suffix])

/-- Model of `build_postgres_identifier(items, suffix)`. -/
def build_postgres_identifier (items : List String) (suffix : String) : String :=
  let baseName := joinedName items suffix
  if baseName.length ≤ MAX_POSTGRES_IDENTIFIER_LEN then baseName
  else
    let hashVal := md5hex8 baseName
    let chopThreshold : Int :=
      (MAX_POSTGRES_IDENTIFIER_LEN : Int) - ((suffix.length : Int) + 8 + 2)
    let choppedName := pyTake baseName chopThreshold
    choppedName ++ "_" ++ hashVal ++ "_" ++ suffix

/-! ## Safe operation managers (operations.py)

Each manager is modelled as a pure function from a schema-state record to
the list of SQL statements it issues (the trace, in issue order) and the
resulting schema state, or an error.  The state records carry exactly the
introspection facts the manager queries.  The `inTxn` argument models
`NotInTransactionMixin._ensure_not_in_transaction` (the schema editor's
connection being inside a transaction) and `allowed` models
`allow_migrate_model` (the router predicate). -/

/-- One SQL statement issued by an operation manager; constructors follow
the query constants of operations.py.  `setLockTimeout` carries the value
interpolated into `SET lock_timeout = ...`. -/
inductive Stmt
  | checkIsNotNull
  | checkConstraintExists
  | checkConstraintIsValid
  | addNotNullCheckConstraintNotValid
  | validateConstraint
  | setNotNull
  | dropNotNull
  | dropConstraint
  | showLockTimeout
  | setLockTimeout (v : String)
  | checkInvalidIndex
  | dropIndexConcurrently
  | createIndexConcurrently (unique : Bool)
  | addUniqueConstraintUsingIndex
  | checkColumnExists
  | checkValidIndex
  | addNullColumn
  | addNotValidFk
deriving DecidableEq, Repr

/-- Introspection (`SELECT`/`SHOW`) statements, as opposed to mutating DDL
or timeout-setting statements. -/
def Stmt.isIntrospection : Stmt → Bool
  | .checkIsNotNull | .checkConstraintExists | .checkConstraintIsValid
  | .showLockTimeout | .checkInvalidIndex | .checkColumnExists
  | .checkValidIndex => true
  | _ => false

/-- Errors an operation manager may raise. -/
inductive OpErr
  | notSupportedInTransaction
  | constraintAlreadyExists
deriving DecidableEq, Repr

/-! ### `NullsManager.set_not_null` (operations.py lines 725-803) -/

/-- The introspection facts `set_not_null` queries: whether the column is
already NOT NULL (`IS_COLUMN_NOT_NULL`), whether the helper check
constraint of the computed name exists (`CHECK_EXISTING_CONSTRAINT`), and
whether it is validated (`CHECK_CONSTRAINT_IS_VALID`). -/
structure NullState where
  isNotNull : Bool
  constraintExists : Bool
  constraintValid : Bool
deriving DecidableEq, Repr

/-- Model of `NullsManager.set_not_null`.  The two leading introspection
queries are always executed (both assignments run before the first `if`).
Mutating statements update the state: the ADD creates a NOT VALID
constraint, VALIDATE validates it, SET NOT NULL makes the column not-null,
DROP removes the helper constraint. -/
def setNotNullOp (inTxn allowed : Bool) (s : NullState) :
    List Stmt × Except OpErr NullState :=
  if inTxn then ([], .error .notSupportedInTransaction)
  else if !allowed then ([], .ok s)
  else
    let checks := [Stmt.checkIsNotNull, Stmt.checkConstraintExists]
    let converged : NullState :=
      { isNotNull := true, constraintExists := false, constraintValid := false }
    if s.isNotNull && !s.constraintExists then (checks, .ok s)
    else if !s.constraintExists then
      (checks ++ [.addNotNullCheckConstraintNotValid, .validateConstraint,
        .setNotNull, .dropConstraint], .ok converged)
    else if s.constraintValid then
      (checks ++ [.checkConstraintIsValid]
        ++ (if !s.isNotNull then [Stmt.setNotNull] else [])
        ++ [.dropConstraint], .ok converged)
    else
      (checks ++ [.checkConstraintIsValid, .validateConstraint, .setNotNull,
        .dropConstraint], .ok converged)

/-! ### `SafeIndexOperationManager.safer_create_index` (lines 216-244) and
`SafeConstraintOperationManager.create_constraint` (lines 344-411) -/

/-- The schema facts `create_constraint` / `safer_create_index` consult:
whether a constraint of the target name exists in `pg_constraint`, whether
an *invalid* index of the target name exists in `pg_index`, and the current
`lock_timeout` value (returned by `SHOW lock_timeout`). -/
structure IdxState where
  constraintExists : Bool
  invalidIndexExists : Bool
  lockTimeout : String
deriving DecidableEq, Repr

/-- The statements `safer_create_index` issues, in order: read the original
lock timeout, zero it, check for an invalid index of the target name (drop
it concurrently if found), create the index concurrently, restore the
original lock timeout. -/
def saferCreateIndexStmts (unique : Bool) (lockTimeout : String)
    (invalidIndexExists : Bool) : List Stmt :=
  [.showLockTimeout, .setLockTimeout "0", .checkInvalidIndex]
  ++ (if invalidIndexExists then [Stmt.dropIndexConcurrently] else [])
  ++ [.createIndexConcurrently unique, .setLockTimeout lockTimeout]

/-- Model of `SafeConstraintOperationManager.create_constraint` for a
`UniqueConstraint`.  `hasCondition` is whether `constraint.condition` is
set: if so, only the unique index is created and the routine returns
without touching `pg_constraint`.  Otherwise `_can_create_constraint`
checks existence first (raising `ConstraintAlreadyExists` when
`raise_if_exists` is set), then the unique index is built and the table
constraint added `USING INDEX`. -/
def createConstraint (inTxn allowed raiseIfExists hasCondition : Bool)
    (s : IdxState) : List Stmt × Except OpErr IdxState :=
  if inTxn then ([], .error .notSupportedInTransaction)
  else if !allowed then ([], .ok s)
  else if hasCondition then
    (saferCreateIndexStmts true s.lockTimeout s.invalidIndexExists,
     .ok { s with invalidIndexExists := false })
  else if s.constraintExists then
    if raiseIfExists then ([Stmt.checkConstraintExists], .error .constraintAlreadyExists)
    else ([Stmt.checkConstraintExists], .ok s)
  else
    ([Stmt.checkConstraintExists]
      ++ saferCreateIndexStmts true s.lockTimeout s.invalidIndexExists
      ++ [Stmt.addUniqueConstraintUsingIndex],
     .ok { s with invalidIndexExists := false, constraintExists := true })

/-! ### `ForeignKeyManager.add_fk_field` (operations.py lines 1020-1082) -/

/-- The schema facts `add_fk_field` consults: whether the FK column exists
(`CHECK_COLUMN_EXISTS`), whether a *valid* index of the computed name
exists (`CHECK_VALID_INDEX`), whether an invalid one exists
(`CHECK_INVALID_INDEX`, inside `safer_create_index`), whether the FK
constraint of the computed name exists (`CHECK_EXISTING_CONSTRAINT`) and is
validated (`CHECK_CONSTRAINT_IS_VALID`), plus the current lock timeout. -/
structure FkState where
  columnExists : Bool
  validIndexExists : Bool
  invalidIndexExists : Bool
  constraintExists : Bool
  constraintValid : Bool
  lockTimeout : String
deriving DecidableEq, Repr

/-- Model of `ForeignKeyManager._maybe_create_index`: runs
`safer_create_index` only when the field declares `db_index`. -/
def maybeCreateIndexStmts (dbIndex : Bool) (lockTimeout : String)
    (invalidIndexExists : Bool) : List Stmt :=
  if dbIndex then saferCreateIndexStmts false lockTimeout invalidIndexExists else []

/-- Model of `ForeignKeyManager.add_fk_field`.  Four probe-then-advance
branches, exactly as in the source: (1) column missing: add it, maybe build
the index, add the NOT VALID FK, validate; (2) `db_index` set and no valid
index: build the index, add the NOT VALID FK, validate; (3) constraint
missing: add the NOT VALID FK, validate; (4) constraint present but not
valid: validate.  `CHECK_VALID_INDEX` is only queried when `db_index` is
set (Python short-circuit of `self.field.db_index and not
self._valid_index_exists()`). -/
def addFkField (inTxn allowed dbIndex : Bool) (s : FkState) :
    List Stmt × Except OpErr FkState :=
  if inTxn then ([], .error .notSupportedInTransaction)
  else if !allowed then ([], .ok s)
  else
    let done : FkState :=
      { s with columnExists := true,
               validIndexExists := s.validIndexExists || dbIndex,
               invalidIndexExists := false,
               constraintExists := true, constraintValid := true }
    if !s.columnExists then
      ([Stmt.checkColumnExists, Stmt.addNullColumn]
        ++ maybeCreateIndexStmts dbIndex s.lockTimeout s.invalidIndexExists
        ++ [Stmt.addNotValidFk, Stmt.validateConstraint], .ok done)
    else
      let t1 := [Stmt.checkColumnExists]
        ++ (if dbIndex then [Stmt.checkValidIndex] else [])
      if dbIndex && !s.validIndexExists then
        (t1 ++ maybeCreateIndexStmts dbIndex s.lockTimeout s.invalidIndexExists
          ++ [Stmt.addNotValidFk, Stmt.validateConstraint], .ok done)
      else
        let t2 := t1 ++ [Stmt.checkConstraintExists]
        if !s.constraintExists then
          (t2 ++ [Stmt.addNotValidFk, Stmt.validateConstraint],
           .ok { s with constraintExists := true, constraintValid := true })
        else
          let t3 := t2 ++ [Stmt.checkConstraintIsValid]
          if !s.constraintValid then
            (t3 ++ [Stmt.validateConstraint], .ok { s with constraintValid := true })
          else (t3, .ok s)

/-! ## Timeout scope controller (`timeouts.apply_timeouts`)

The database connection is a state record.  `inAtomicBlock` models both
`not transaction.get_autocommit(...)` at entry (scope selection: inside a
transaction means `SET LOCAL`, otherwise session-level `SET`) and
`conn.in_atomic_block` as inspected by the session-scope cleanup after the
protected region; `usable` models `conn.is_usable()`.  The protected
region (`yield`) is an arbitrary function from states to a new state plus
a body result; re-raised Python exceptions become `Except` errors.  The
`timedelta` arguments are modelled by their whole-millisecond values (the
source converts with `int(td.total_seconds() * 1000)`, the identity on
whole milliseconds).  When the body fails inside a transaction the
database rolls the `LOCAL` settings back by itself; the model leaves the
state as the body produced it, which no claim inspects. -/

/-- The scope keyword interpolated into `SET ... = ...`. -/
inductive Scope
  | lcl
  | session
deriving DecidableEq, Repr

/-- The connection state visible to `apply_timeouts`. -/
structure DbState where
  lockTimeout : String
  statementTimeout : String
  inAtomicBlock : Bool
  usable : Bool
  serverDefaultLockTimeout : String
  serverDefaultStatementTimeout : String
deriving DecidableEq, Repr

/-- How the protected region (`yield`) exits: normally, with a
`django.db.utils.OperationalError` carrying a message, or with any other
exception. -/
inductive BodyResult
  | ok
  | opError (msg : String)
  | exn (tag : String)
deriving DecidableEq, Repr

/-- The errors `apply_timeouts` can raise (plus re-raised body errors). -/
inductive TErr
  | timeoutNotProvided
  | timeoutWasNotPositive
  | redundantLockTimeout
  | closeTransactionLeakInsideTransaction
  | dbLockTimeout
  | dbStatementTimeout
  | operational (msg : String)
  | otherError (tag : String)
  | unsupportedTimeoutBehaviour
deriving DecidableEq, Repr

/-- The common `DBTimeoutError` base: `DBLockTimeoutError` and
`DBStatementTimeoutError` are its two subtypes. -/
def TErr.isDBTimeoutError : TErr → Bool
  | .dbLockTimeout | .dbStatementTimeout => true
  | _ => false

/-- Statements the controller itself issues (the body's are separate). -/
inductive TStmt
  | showLockTimeout
  | setLockTimeout (scope : Scope) (v : String)
  | showStatementTimeout
  | setStatementTimeout (scope : Scope) (v : String)
deriving DecidableEq, Repr

/-- Boolean prefix test on lists. -/
def listIsPrefixB {α : Type} [DecidableEq α] : List α → List α → Bool
  | [], _ => true
  | _ :: _, [] => false
  | a :: as, b :: bs => if a = b then listIsPrefixB as bs else false

/-- Boolean contiguous-sublist test on lists (Python's `needle in hay`). -/
def listContainsB {α : Type} [DecidableEq α] (needle : List α) : List α → Bool
  | [] => listIsPrefixB needle []
  | b :: bs => listIsPrefixB needle (b :: bs) || listContainsB needle bs

/-- Python's `needle in hay` on strings. -/
def strContains (hay needle : String) : Bool := listContainsB needle.data hay.data

def lockTimeoutText : String := "canceling statement due to lock timeout"

def statementTimeoutText : String := "canceling statement due to statement timeout"

/-- Python truthiness of an optional integer (`None` and `0` are falsy). -/
def msTruthy : Option Int → Bool
  | none => false
  | some v => v != 0

/-- The three input validations of `apply_timeouts`, in source order:
`TimeoutNotProvided` when both are `None`; `TimeoutWasNotPositive` when a
provided value is `<= 0`; `RedundantLockTimeout` when both are truthy and
`lock >= statement`. -/
def validateSpec (lockMs stmtMs : Option Int) : Option TErr :=
  if lockMs.isNone && stmtMs.isNone then some .timeoutNotProvided
  else if (lockMs.any fun v => decide (v ≤ 0)) || (stmtMs.any fun v => decide (v ≤ 0)) then
    some .timeoutWasNotPositive
  else if msTruthy lockMs && msTruthy stmtMs && lockMs.getD 0 ≥ stmtMs.getD 0 then
    some .redundantLockTimeout
  else none

/-- The string `f"{ms}ms"` passed to `SET ... lock_timeout = %s`. -/
def fmtMs (v : Int) : String := toString v ++ "ms"

/-- The state after the `SHOW`/`SET` prologue: each provided timeout is
overridden with its `"{ms}ms"` rendering. -/
def setCurrent (lockMs stmtMs : Option Int) (s : DbState) : DbState :=
  { s with
    lockTimeout := match lockMs with | some v => fmtMs v | none => s.lockTimeout
    statementTimeout := match stmtMs with | some v => fmtMs v | none => s.statementTimeout }

/-- The statements of the `SHOW`/`SET` prologue. -/
def setupTrace (scope : Scope) (lockMs stmtMs : Option Int) : List TStmt :=
  (match lockMs with
   | some v => [TStmt.showLockTimeout, TStmt.setLockTimeout scope (fmtMs v)]
   | none => [])
  ++ (match stmtMs with
      | some v => [TStmt.showStatementTimeout, TStmt.setStatementTimeout scope (fmtMs v)]
      | none => [])

/-- Model of `_reset_timeouts`: restore each stored previous value (only
the timeouts that were overridden have one). -/
def resetState (prevLock prevStmt : Option String) (s : DbState) : DbState :=
  { s with
    lockTimeout := prevLock.getD s.lockTimeout
    statementTimeout := prevStmt.getD s.statementTimeout }

/-- The statements `_reset_timeouts` issues. -/
def resetTrace (scope : Scope) (prevLock prevStmt : Option String) : List TStmt :=
  (match prevLock with | some v => [TStmt.setLockTimeout scope v] | none => [])
  ++ (match prevStmt with | some v => [TStmt.setStatementTimeout scope v] | none => [])

/-- Model of the `except utils.OperationalError` clause: errors whose text
names the lock timeout become `DBLockTimeoutError`, then those naming the
statement timeout become `DBStatementTimeoutError`; other operational
errors are re-raised as they are, and non-operational exceptions propagate
unchanged. -/
def classifyBody (r : BodyResult) : Except TErr Unit :=
  match r with
  | .ok => .ok ()
  | .opError m =>
      if strContains m lockTimeoutText then .error .dbLockTimeout
      else if strContains m statementTimeoutText then .error .dbStatementTimeout
      else .error (.operational m)
  | .exn tag => .error (.otherError tag)

/-- Model of `conn.close_if_unusable_or_obsolete(); conn.connect()`: a fresh
session with server-default timeouts, outside any transaction. -/
def reconnect (s : DbState) : DbState :=
  { s with inAtomicBlock := false, usable := true,
           lockTimeout := s.serverDefaultLockTimeout,
           statementTimeout := s.serverDefaultStatementTimeout }

instance decEqExcept {ε α : Type} [DecidableEq ε] [DecidableEq α] :
    DecidableEq (Except ε α) := fun a b =>
  match a, b with
  | .ok x, .ok y =>
      if h : x = y then isTrue (by rw [h]) else isFalse (fun hh => by cases hh; exact h rfl)
  | .error e, .error e' =>
      if h : e = e' then isTrue (by rw [h]) else isFalse (fun hh => by cases hh; exact h rfl)
  | .ok _, .error _ => isFalse (fun hh => by cases hh)
  | .error _, .ok _ => isFalse (fun hh => by cases hh)

/-- Result of one `apply_timeouts` call: final connection state, the
statements the controller itself issued, and the outcome. -/
structure ATResult where
  state : DbState
  trace : List TStmt
  result : Except TErr Unit
deriving DecidableEq, Repr

/-- Model of `timeouts.apply_timeouts`.  Follows the source line by line:
validation; scope selection from the transaction state;
`CloseTransactionLeakInsideTransaction` when asked to close leaks inside a
transaction; `SHOW`+`SET` prologue storing previous values; the protected
region; on success in `LOCAL` scope a manual reset inside the `try`;
classification of `OperationalError`s; and the `finally` block, which in
session scope raises `UnsupportedTimeoutBehaviour` on a leaked transaction
(superseding any in-flight error), or reconnects first when
`close_transaction_leak` is set and the connection is unusable, and then
always resets the session timeouts to the stored previous values. -/
def applyTimeouts (lockMs stmtMs : Option Int) (closeLeak : Bool)
    (body : DbState → DbState × BodyResult) (s : DbState) : ATResult :=
  match validateSpec lockMs stmtMs with
  | some e => ⟨s, [], .error e⟩
  | none =>
    if s.inAtomicBlock then
      -- LOCAL scope
      if closeLeak then ⟨s, [], .error .closeTransactionLeakInsideTransaction⟩
      else
        let prevLock := lockMs.map fun _ => s.lockTimeout
        let prevStmt := stmtMs.map fun _ => s.statementTimeout
        let t0 := setupTrace .lcl lockMs stmtMs
        let (s1, res) := body (setCurrent lockMs stmtMs s)
        match res with
        | .ok => ⟨resetState prevLock prevStmt s1,
                  t0 ++ resetTrace .lcl prevLock prevStmt, .ok ()⟩
        | r => ⟨s1, t0, classifyBody r⟩
    else
      -- SESSION scope
      let prevLock := lockMs.map fun _ => s.lockTimeout
      let prevStmt := stmtMs.map fun _ => s.statementTimeout
      let t0 := setupTrace .session lockMs stmtMs
      let (s1, res) := body (setCurrent lockMs stmtMs s)
      if s1.inAtomicBlock then
        if closeLeak && !s1.usable then
          ⟨resetState prevLock prevStmt (reconnect s1),
           t0 ++ resetTrace .session prevLock prevStmt, classifyBody res⟩
        else ⟨s1, t0, .error .unsupportedTimeoutBehaviour⟩
      else
        ⟨resetState prevLock prevStmt s1,
         t0 ++ resetTrace .session prevLock prevStmt, classifyBody res⟩

/-! ## Retry strategy (`migrate_with_timeouts.py`, duplicated in
`timeout_retries.py`)

`Command.handle` loops `while retry_strategy.can_migrate()`, attempting the
wrapped migration under `apply_timeouts`; only `DBLockTimeoutError` is
caught (incrementing the counter, waiting, invoking the callback) — a
`DBStatementTimeoutError` or any other exception propagates out of the
loop at once.  Exiting the loop raises `MaximumRetriesReached`.  Each
attempt's outcome is abstracted by what the `apply_timeouts`-wrapped
`super().handle(...)` call produced. -/

/-- Outcome of one wrapped migration attempt. -/
inductive AttemptOutcome
  | success
  | lockTimeout
  | stmtTimeout
  | otherError
deriving DecidableEq, Repr

/-- Model of `MigrateRetryStrategy.can_migrate`. -/
def canMigrate (retries maxRetries : Nat) : Bool :=
  if retries == 0 then true else retries ≤ maxRetries

/-- Outcome of the whole `handle` loop. -/
inductive RunResult
  | ok
  | maxRetriesReached (retries maxRetries : Nat)
  | fatalStmtTimeout
  | fatalOther
deriving DecidableEq, Repr

/-- Model of the `while retry_strategy.can_migrate()` loop of
`Command.handle`.  `f n` is the outcome of the attempt made with the retry
counter at `n`; the second component counts attempts made. -/
def runLoop (f : Nat → AttemptOutcome) (maxRetries retries attempts : Nat) :
    RunResult × Nat :=
  if h : canMigrate retries maxRetries then
    match f retries with
    | .success => (.ok, attempts + 1)
    | .lockTimeout => runLoop f maxRetries (retries + 1) (attempts + 1)
    | .stmtTimeout => (.fatalStmtTimeout, attempts + 1)
    | .otherError => (.fatalOther, attempts + 1)
  else (.maxRetriesReached retries maxRetries, attempts)
  termination_by maxRetries + 1 - retries
  decreasing_by
    simp [canMigrate] at h
    rcases h with h | h <;> omega

/-- The message of the `MaximumRetriesReached` error raised on loop exit. -/
def maximumRetriesReachedMessage (retries maxRetries : Nat) : String :=
  "Please consider trying a longer retry configuration or " ++
  "investigate whether there were long-running transactions " ++
  "during the migration. " ++
  "There were " ++ toString retries ++ " lock timeouts. " ++
  "This happened because --lock-timeout-max-retries was set to " ++
  toString maxRetries ++ "."

/-! ### `MigrateRetryStrategy.wait`

`wait` computes `exp ** float(self.retries)` — caught `OverflowError`
replaced by `max_wait.total_seconds()` — then sleeps
`max(min_wait.total_seconds(), min(result, max_wait.total_seconds()))`.
Durations (`total_seconds()` values) are modelled as exact rationals, and
the float overflow by an explicit threshold `2^1024` (Python floats are
IEEE-754 doubles; `b ** e` raises `OverflowError` when the result exceeds
the largest finite double, which lies between `2^1023` and `2^1024`).  The
claim settled against this model is order-theoretic (clamping into
`[min_wait, max_wait]`), which is unaffected by the monotone rounding of
in-range float results. -/

/-- Options carried by `TimeoutRetryOptions` (`max_retries` and `exp` are
validated non-negative by `_Parser.required_positive_int`). -/
structure RetryOptions where
  maxRetries : Nat
  exp : Nat
  minWaitSec : ℚ
  maxWaitSec : ℚ
deriving DecidableEq, Repr

/-- Threshold above which `exp ** float(n)` overflows to `OverflowError`. -/
def FLOAT_OVERFLOW_BOUND : ℚ := 2 ^ 1024

/-- Model of `result = exp ** float(self.retries)` with the
`except OverflowError: result = max_wait.total_seconds()` handler. -/
def powResult (exp retries : Nat) (maxWaitSec : ℚ) : ℚ :=
  if ((exp : ℚ) ^ retries) ≥ FLOAT_OVERFLOW_BOUND then maxWaitSec
  else (exp : ℚ) ^ retries

/-- Model of `MigrateRetryStrategy.wait`: `none` when `can_migrate()` is
false (no sleep at all), otherwise the number of seconds slept. -/
def waitSeconds (o : RetryOptions) (retries : Nat) : Option ℚ :=
  if !canMigrate retries o.maxRetries then none
  else some (max o.minWaitSec (min (powResult o.exp retries o.maxWaitSec) o.maxWaitSec))

/-! ## Claims C1, C2, C9, C10: the operation managers -/

/-- CLAIM C1 (as stated, second half) is false on the code: re-running
`set_not_null` after convergence issues *two* introspection checks, not
one.  Both `self._is_not_null(...)` and `self._constraint_exists(...)` are
evaluated before the first `if`, so the converged re-run's trace is the
two-element list `[IS_COLUMN_NOT_NULL, CHECK_EXISTING_CONSTRAINT]` (the
repository's own test `test_when_field_is_already_not_nullable` asserts
`len(queries) == 2`). -/
theorem C1_counterexample_rerun_issues_two_checks :
    setNotNullOp false true ⟨false, false, false⟩
      = ([Stmt.checkIsNotNull, Stmt.checkConstraintExists,
          Stmt.addNotNullCheckConstraintNotValid, Stmt.validateConstraint,
          Stmt.setNotNull, Stmt.dropConstraint],
         Except.ok ⟨true, false, false⟩) ∧
    setNotNullOp false true ⟨true, false, false⟩
      = ([Stmt.checkIsNotNull, Stmt.checkConstraintExists],
         Except.ok ⟨true, false, false⟩) ∧
    (setNotNullOp false true ⟨true, false, false⟩).1.length ≠ 1 := by
  refine ⟨by decide, by decide, by decide⟩

/-- CLAIM C1 (amended): starting from any nullable column with no helper
constraint, `set_not_null` (outside a transaction, router permitting)
issues exactly six statements in the claimed order — the column-not-null
check, the constraint-existence check, ADD CONSTRAINT ... CHECK (col IS
NOT NULL) NOT VALID, VALIDATE CONSTRAINT, SET NOT NULL, DROP CONSTRAINT —
reaching the converged state; re-running it then issues exactly *two*
introspection checks (not one) and performs no mutation. -/
theorem C1_set_not_null_six_statements_then_two_check_noop
    (s : NullState) (h1 : s.isNotNull = false) (h2 : s.constraintExists = false) :
    setNotNullOp false true s
      = ([Stmt.checkIsNotNull, Stmt.checkConstraintExists,
          Stmt.addNotNullCheckConstraintNotValid, Stmt.validateConstraint,
          Stmt.setNotNull, Stmt.dropConstraint],
         Except.ok ⟨true, false, false⟩) ∧
    setNotNullOp false true ⟨true, false, false⟩
      = ([Stmt.checkIsNotNull, Stmt.checkConstraintExists],
         Except.ok ⟨true, false, false⟩) ∧
    (∀ st ∈ (setNotNullOp false true (⟨true, false, false⟩ : NullState)).1,
      st.isIntrospection = true) ∧
    (setNotNullOp false true (⟨true, false, false⟩ : NullState)).1.length = 2 := by
  refine ⟨?_, by decide, by decide, by decide⟩
  simp [setNotNullOp, h1, h2]

/-- Witness for C1's amended theorem at the concrete nullable/no-constraint
state. -/
theorem C1_witness :
    (⟨false, false, false⟩ : NullState).isNotNull = false ∧
    setNotNullOp false true ⟨false, false, false⟩
      = ([Stmt.checkIsNotNull, Stmt.checkConstraintExists,
          Stmt.addNotNullCheckConstraintNotValid, Stmt.validateConstraint,
          Stmt.setNotNull, Stmt.dropConstraint],
         Except.ok ⟨true, false, false⟩) :=
  ⟨rfl, (C1_set_not_null_six_statements_then_two_check_noop
    ⟨false, false, false⟩ rfl rfl).1⟩

/-- CLAIM C2 (as stated) is false on the code: `safer_create_index` zeroes
the lock timeout *before* checking for (and dropping) an invalid index of
the target name, so the claimed order "detect, drop, zero, create,
restore, add" is not a subsequence of the issued statements.  The actual
trace at the claimed scenario (invalid index present, constraint absent,
prior lock timeout `1s`) is asserted literally by the repository's own
test `test_operation_is_idempotent`: existence check, SHOW lock_timeout,
SET lock_timeout `0`, invalid-index check, drop, create, SET lock_timeout
`1s`, ADD CONSTRAINT ... UNIQUE USING INDEX. -/
theorem C2_counterexample_zeroing_precedes_detection :
    (createConstraint false true true false ⟨false, true, "1s"⟩).1
      = [Stmt.checkConstraintExists, Stmt.showLockTimeout, Stmt.setLockTimeout "0",
         Stmt.checkInvalidIndex, Stmt.dropIndexConcurrently,
         Stmt.createIndexConcurrently true, Stmt.setLockTimeout "1s",
         Stmt.addUniqueConstraintUsingIndex] ∧
    List.indexOf (Stmt.setLockTimeout "0")
        (createConstraint false true true false ⟨false, true, "1s"⟩).1
      < List.indexOf Stmt.checkInvalidIndex
        (createConstraint false true true false ⟨false, true, "1s"⟩).1 ∧
    ¬ List.Sublist
        [Stmt.checkInvalidIndex, Stmt.dropIndexConcurrently, Stmt.setLockTimeout "0",
         Stmt.createIndexConcurrently true, Stmt.setLockTimeout "1s",
         Stmt.addUniqueConstraintUsingIndex]
        (createConstraint false true true false ⟨false, true, "1s"⟩).1 := by
  refine ⟨by decide, by decide, by decide⟩

/-- CLAIM C2 (amended): with an invalid index of the target name present
and the constraint absent, `create_constraint` issues, in order: the
constraint-existence check, a read of the current lock timeout, SET
lock_timeout to zero, the invalid-index check, DROP INDEX CONCURRENTLY,
CREATE UNIQUE INDEX CONCURRENTLY, SET lock_timeout back to the stored
value, and ALTER TABLE ... UNIQUE USING INDEX.  Re-running after
convergence issues only the constraint-existence check and performs no
mutation: with `raise_if_exists=False` it returns normally, and with the
default `raise_if_exists=True` it raises `ConstraintAlreadyExists` after
that single check. -/
theorem C2_unique_constraint_order_and_rerun
    (s : IdxState) (ri : Bool)
    (h1 : s.invalidIndexExists = true) (h2 : s.constraintExists = false) :
    createConstraint false true ri false s
      = ([Stmt.checkConstraintExists, Stmt.showLockTimeout, Stmt.setLockTimeout "0",
          Stmt.checkInvalidIndex, Stmt.dropIndexConcurrently,
          Stmt.createIndexConcurrently true, Stmt.setLockTimeout s.lockTimeout,
          Stmt.addUniqueConstraintUsingIndex],
         Except.ok ⟨true, false, s.lockTimeout⟩) ∧
    createConstraint false true false false ⟨true, false, s.lockTimeout⟩
      = ([Stmt.checkConstraintExists], Except.ok ⟨true, false, s.lockTimeout⟩) ∧
    (∀ st ∈ (createConstraint false true false false
        (⟨true, false, s.lockTimeout⟩ : IdxState)).1, st.isIntrospection = true) ∧
    createConstraint false true true false ⟨true, false, s.lockTimeout⟩
      = ([Stmt.checkConstraintExists], Except.error OpErr.constraintAlreadyExists) := by
  refine ⟨?_, ?_, ?_, ?_⟩
  · simp [createConstraint, saferCreateIndexStmts, h1, h2]
  · simp [createConstraint]
  · simp [createConstraint, Stmt.isIntrospection]
  · simp [createConstraint]

/-- Witness for C2's amended theorem at the concrete claimed scenario. -/
theorem C2_witness :
    (⟨false, true, "1s"⟩ : IdxState).invalidIndexExists = true ∧
    createConstraint false true true false ⟨false, true, "1s"⟩
      = ([Stmt.checkConstraintExists, Stmt.showLockTimeout, Stmt.setLockTimeout "0",
          Stmt.checkInvalidIndex, Stmt.dropIndexConcurrently,
          Stmt.createIndexConcurrently true, Stmt.setLockTimeout "1s",
          Stmt.addUniqueConstraintUsingIndex],
         Except.ok ⟨true, false, "1s"⟩) :=
  ⟨rfl, (C2_unique_constraint_order_and_rerun ⟨false, true, "1s"⟩ true rfl rfl).1⟩

/-- CLAIM C9 (as stated) is false on the code: on the path where the
column already exists but `db_index` is set and no valid index exists,
`add_fk_field` rebuilds the index and then issues the ADD CONSTRAINT ...
FOREIGN KEY ... NOT VALID without consulting the constraint catalog — even
in a schema state where the FK constraint of the computed name already
exists. -/
theorem C9_counterexample_fk_added_despite_existing_constraint :
    (⟨true, false, false, true, true, "1s"⟩ : FkState).constraintExists = true ∧
    Stmt.addNotValidFk
      ∈ (addFkField false true true ⟨true, false, false, true, true, "1s"⟩).1 := by
  refine ⟨rfl, by decide⟩

/-- CLAIM C9 (amended): when the FK column already exists and no index
build is needed (the field does not request an index, or a valid index of
the computed name already exists), `add_fk_field` issues the ADD
CONSTRAINT ... FOREIGN KEY ... NOT VALID statement exactly when the FK
constraint of the computed name is absent from the constraint catalog; on
the add-column and rebuild-index paths the NOT VALID FK is issued without
consulting the catalog. -/
theorem C9_fk_added_iff_constraint_absent
    (s : FkState) (dbIndex : Bool)
    (h1 : s.columnExists = true)
    (h2 : dbIndex = true → s.validIndexExists = true) :
    (Stmt.addNotValidFk ∈ (addFkField false true dbIndex s).1
      ↔ s.constraintExists = false) := by
  cases dbIndex with
  | false =>
      cases hce : s.constraintExists with
      | false => simp [addFkField, h1, hce]
      | true =>
          cases hcv : s.constraintValid with
          | false => simp [addFkField, h1, hce, hcv]
          | true => simp [addFkField, h1, hce, hcv]
  | true =>
      have h3 := h2 rfl
      cases hce : s.constraintExists with
      | false => simp [addFkField, h1, h3, hce]
      | true =>
          cases hcv : s.constraintValid with
          | false => simp [addFkField, h1, h3, hce, hcv]
          | true => simp [addFkField, h1, h3, hce, hcv]

/-- Witness for C9's amended theorem: column and valid index present,
constraint absent, so the NOT VALID FK is issued. -/
theorem C9_witness :
    (⟨true, true, false, false, false, "1s"⟩ : FkState).columnExists = true ∧
    (Stmt.addNotValidFk
        ∈ (addFkField false true true ⟨true, true, false, false, false, "1s"⟩).1
      ↔ (⟨true, true, false, false, false, "1s"⟩ : FkState).constraintExists = false) :=
  ⟨rfl, C9_fk_added_iff_constraint_absent ⟨true, true, false, false, false, "1s"⟩
    true rfl (fun _ => rfl)⟩

/-- CLAIM C10 (confirmed): when the unique constraint carries a partial
condition, `create_constraint` builds only the unique index (the
`safer_create_index` statement sequence) and returns; it never queries the
constraint catalog, never consults `raise_if_exists`, and never raises
`ConstraintAlreadyExists`, regardless of whether a constraint of that name
exists. -/
theorem C10_conditional_constraint_never_checks_catalog
    (s : IdxState) (ri : Bool) :
    (createConstraint false true ri true s).1
        = saferCreateIndexStmts true s.lockTimeout s.invalidIndexExists ∧
    Stmt.checkConstraintExists ∉ (createConstraint false true ri true s).1 ∧
    Stmt.checkConstraintIsValid ∉ (createConstraint false true ri true s).1 ∧
    (createConstraint false true ri true s).2
        = Except.ok { s with invalidIndexExists := false } ∧
    createConstraint false true ri true s = createConstraint false true (!ri) true s := by
  refine ⟨by simp [createConstraint], ?_, ?_, by simp [createConstraint],
    by simp [createConstraint]⟩
  · cases h : s.invalidIndexExists <;>
      simp [createConstraint, saferCreateIndexStmts, h]
  · cases h : s.invalidIndexExists <;>
      simp [createConstraint, saferCreateIndexStmts, h]

/-- Witness for C10 at a concrete state where the constraint of the target
name does exist and `raise_if_exists` is set: still no catalog query and
no error. -/
theorem C10_witness :
    Stmt.checkConstraintExists
        ∉ (createConstraint false true true true ⟨true, false, "1s"⟩).1 ∧
    (createConstraint false true true true ⟨true, false, "1s"⟩).2
        = Except.ok ⟨true, false, "1s"⟩ :=
  ⟨(C10_conditional_constraint_never_checks_catalog ⟨true, false, "1s"⟩ true).2.1,
   (C10_conditional_constraint_never_checks_catalog ⟨true, false, "1s"⟩ true).2.2.2.1⟩

/-! ## Claims C7, C8: the retry strategy -/

/-- Auxiliary: when every attempt hits a lock timeout, the loop counts down
the remaining budget `j` and exits with `MaximumRetriesReached`. -/
theorem runLoop_all_lock (f : Nat → AttemptOutcome) (k : Nat)
    (hf : ∀ n, f n = AttemptOutcome.lockTimeout) :
    ∀ (j r a : Nat), r + j = k + 1 →
      runLoop f k r a = (.maxRetriesReached (k + 1) k, a + j) := by
  intro j
  induction j with
  | zero =>
      intro r a hr
      rw [runLoop]
      have hcm : canMigrate r k = false := by
        simp only [canMigrate, beq_iff_eq]
        rw [if_neg (by omega)]
        simp only [decide_eq_false_iff_not]
        omega
      rw [dif_neg (by simp [hcm])]
      have hrk : r = k + 1 := by omega
      simp [hrk]
  | succ j ih =>
      intro r a hr
      rw [runLoop]
      have hcm : canMigrate r k = true := by
        simp only [canMigrate, beq_iff_eq]
        by_cases h0 : r = 0
        · rw [if_pos h0]
        · rw [if_neg h0]
          simp only [decide_eq_true_eq]
          omega
      rw [dif_pos hcm, hf r]
      rw [ih (r + 1) (a + 1) (by omega)]
      have hadd : a + 1 + j = a + (j + 1) := by omega
      rw [hadd]

/-- CLAIM C7 (confirmed): with `max_retries = k` and every attempt failing
with a lock timeout, the loop makes exactly `k + 1` attempts and then
raises `MaximumRetriesReached`; `can_migrate` is true exactly when the
retry counter is `0` or at most `k`; and the error message cites the
configured limit `k`. -/
theorem C7_retry_ceiling (k : Nat) (f : Nat → AttemptOutcome)
    (hf : ∀ n, f n = AttemptOutcome.lockTimeout) :
    runLoop f k 0 0 = (.maxRetriesReached (k + 1) k, k + 1) ∧
    (∀ r : Nat, canMigrate r k = true ↔ (r = 0 ∨ r ≤ k)) ∧
    (∃ pre post : String,
      maximumRetriesReachedMessage (k + 1) k = pre ++ (toString k ++ post)) := by
  refine ⟨?_, ?_, ?_⟩
  · have h := runLoop_all_lock f k hf (k + 1) 0 0 (by omega)
    simpa using h
  · intro r
    by_cases h0 : r = 0
    · simp [canMigrate, h0]
    · simp [canMigrate, h0]
  · exact ⟨"Please consider trying a longer retry configuration or " ++
      "investigate whether there were long-running transactions " ++
      "during the migration. " ++
      "There were " ++ toString (k + 1) ++ " lock timeouts. " ++
      "This happened because --lock-timeout-max-retries was set to ", ".",
      by simp [maximumRetriesReachedMessage, String.append_assoc]⟩

/-- Witness for C7 at `k = 2`: exactly three attempts, then the exhaustion
error carrying the limit. -/
theorem C7_witness :
    runLoop (fun _ => AttemptOutcome.lockTimeout) 2 0 0
      = (.maxRetriesReached 3 2, 3) :=
  (C7_retry_ceiling 2 (fun _ => AttemptOutcome.lockTimeout) (fun _ => rfl)).1

/-- CLAIM C8 (confirmed): whenever `min_wait <= max_wait` and a wait
actually occurs (`can_migrate()` true — otherwise `wait` returns without
sleeping), the slept duration equals
`max(min_wait, min(result, max_wait))` where `result` is `exp ** n` (not
scaled by `min_wait`), or `max_wait` when the exponentiation overflows;
hence it always lies in `[min_wait, max_wait]`, and on overflow it equals
`max_wait` exactly. -/
theorem C8_backoff_clamp (o : RetryOptions) (n : Nat) (w : ℚ)
    (hmm : o.minWaitSec ≤ o.maxWaitSec)
    (hw : waitSeconds o n = some w) :
    w = max o.minWaitSec (min (powResult o.exp n o.maxWaitSec) o.maxWaitSec) ∧
    (((o.exp : ℚ) ^ n < FLOAT_OVERFLOW_BOUND) →
        w = max o.minWaitSec (min ((o.exp : ℚ) ^ n) o.maxWaitSec)) ∧
    o.minWaitSec ≤ w ∧ w ≤ o.maxWaitSec ∧
    (((o.exp : ℚ) ^ n ≥ FLOAT_OVERFLOW_BOUND) → w = o.maxWaitSec) := by
  have hw' : w = max o.minWaitSec (min (powResult o.exp n o.maxWaitSec) o.maxWaitSec) := by
    unfold waitSeconds at hw
    by_cases h : canMigrate n o.maxRetries
    · rw [h] at hw
      simp at hw
      exact hw.symm
    · simp [eq_false_of_ne_true h] at hw
  refine ⟨hw', ?_, ?_, ?_, ?_⟩
  · intro hlt
    rw [hw']
    unfold powResult
    rw [if_neg (not_le.mpr hlt)]
  · rw [hw']
    exact le_max_left _ _
  · rw [hw']
    exact max_le hmm (min_le_right _ _)
  · intro hge
    rw [hw']
    unfold powResult
    rw [if_pos hge, min_self]
    exact max_eq_right hmm

/-- Witness for C8: the spec's own example `exp=2, min_wait=1s,
max_wait=20s, n=2` sleeps exactly `4` seconds, inside the bounds. -/
theorem C8_witness :
    waitSeconds ⟨5, 2, 1, 20⟩ 2 = some 4 ∧ (1 : ℚ) ≤ 4 ∧ (4 : ℚ) ≤ 20 := by
  have heval : waitSeconds ⟨5, 2, 1, 20⟩ 2 = some 4 := by
    have hpow : ¬ ((2 : ℚ) ^ 2 ≥ FLOAT_OVERFLOW_BOUND) := by
      rw [FLOAT_OVERFLOW_BOUND]
      norm_num
    simp [waitSeconds, canMigrate, powResult, hpow]
    norm_num
  refine ⟨heval, ?_, ?_⟩
  · exact le_trans (by norm_num)
      ((C8_backoff_clamp ⟨5, 2, 1, 20⟩ 2 4 (by norm_num) heval).2.2.1)
  · exact le_trans
      ((C8_backoff_clamp ⟨5, 2, 1, 20⟩ 2 4 (by norm_num) heval).2.2.2.1)
      (by norm_num)

/-! ## Claims C4, C5, C6: the timeout scope controller -/

/-- Characterization: `TimeoutNotProvided` is raised exactly when neither
timeout is given. -/
theorem validateSpec_notProvided_iff (l st : Option Int) :
    validateSpec l st = some .timeoutNotProvided ↔ (l = none ∧ st = none) := by
  cases l with
  | none =>
      cases st with
      | none => simp [validateSpec]
      | some b => by_cases hb : b ≤ 0 <;> simp [validateSpec, msTruthy, hb]
  | some a =>
      cases st with
      | none => by_cases ha : a ≤ 0 <;> simp [validateSpec, msTruthy, ha]
      | some b =>
          by_cases ha : a ≤ 0 <;> by_cases hb : b ≤ 0 <;>
            by_cases hab : b ≤ a <;>
            simp [validateSpec, msTruthy, ha, hb, hab]

/-- Characterization: `TimeoutWasNotPositive` is raised exactly when a
provided timeout is `≤ 0`. -/
theorem validateSpec_notPositive_iff (l st : Option Int) :
    validateSpec l st = some .timeoutWasNotPositive ↔
      ((∃ v, l = some v ∧ v ≤ 0) ∨ (∃ v, st = some v ∧ v ≤ 0)) := by
  cases l with
  | none =>
      cases st with
      | none => simp [validateSpec]
      | some b => by_cases hb : b ≤ 0 <;> simp [validateSpec, msTruthy, hb]
  | some a =>
      cases st with
      | none => by_cases ha : a ≤ 0 <;> simp [validateSpec, msTruthy, ha]
      | some b =>
          by_cases ha : a ≤ 0 <;> by_cases hb : b ≤ 0 <;>
            by_cases hab : b ≤ a <;>
            simp [validateSpec, msTruthy, ha, hb, hab]

/-- Characterization: `RedundantLockTimeout` is raised exactly when both
timeouts are provided, both are positive, and `lock >= statement`. -/
theorem validateSpec_redundant_iff (l st : Option Int) :
    validateSpec l st = some .redundantLockTimeout ↔
      (∃ a b, l = some a ∧ st = some b ∧ 0 < a ∧ 0 < b ∧ b ≤ a) := by
  cases l with
  | none =>
      cases st with
      | none => simp [validateSpec]
      | some b => by_cases hb : b ≤ 0 <;> simp [validateSpec, msTruthy, hb]
  | some a =>
      cases st with
      | none => by_cases ha : a ≤ 0 <;> simp [validateSpec, msTruthy, ha]
      | some b =>
          by_cases ha : a ≤ 0 <;> by_cases hb : b ≤ 0 <;>
            by_cases hab : b ≤ a <;>
            simp [validateSpec, msTruthy, ha, hb, hab] <;> omega

/-- A failed validation returns before any statement is issued: unchanged
state, empty trace, the validation error. -/
theorem applyTimeouts_validation_fail (l st : Option Int) (cl : Bool)
    (body : DbState → DbState × BodyResult) (s : DbState) (e : TErr)
    (hv : validateSpec l st = some e) :
    applyTimeouts l st cl body s = ⟨s, [], .error e⟩ := by
  unfold applyTimeouts
  rw [hv]

/-- The classification of a body outcome is never a validation error. -/
theorem classifyBody_not_validation (r : BodyResult) :
    classifyBody r ≠ .error .timeoutNotProvided ∧
    classifyBody r ≠ .error .timeoutWasNotPositive ∧
    classifyBody r ≠ .error .redundantLockTimeout := by
  cases r with
  | ok => simp [classifyBody]
  | opError m =>
      simp only [classifyBody]
      split_ifs <;> simp
  | exn t => simp [classifyBody]

/-- Once validation passes, no later path of `apply_timeouts` can produce a
validation error. -/
theorem applyTimeouts_no_validation_error (l st : Option Int) (cl : Bool)
    (body : DbState → DbState × BodyResult) (s : DbState)
    (hv : validateSpec l st = none) :
    (applyTimeouts l st cl body s).result ≠ .error .timeoutNotProvided ∧
    (applyTimeouts l st cl body s).result ≠ .error .timeoutWasNotPositive ∧
    (applyTimeouts l st cl body s).result ≠ .error .redundantLockTimeout := by
  unfold applyTimeouts
  rw [hv]
  rcases hb : body (setCurrent l st s) with ⟨s1, res⟩
  cases hA : s.inAtomicBlock with
  | true =>
      cases cl with
      | true => simp
      | false =>
          simp only [Bool.false_eq_true, if_false, if_true, hb]
          cases res with
          | ok => simp
          | opError m => simpa using classifyBody_not_validation (.opError m)
          | exn t => simpa using classifyBody_not_validation (.exn t)
  | false =>
      simp only [Bool.false_eq_true, if_false, hb]
      cases hA1 : s1.inAtomicBlock with
      | true =>
          by_cases hcl : (cl && !s1.usable) = true <;>
            simp [hcl] <;>
            simpa using classifyBody_not_validation res
      | false =>
          simpa using classifyBody_not_validation res

/-- CLAIM C5 (as stated) is false on the code in one corner: with
`lock_timeout = -5ms` and `statement_timeout = -10ms`, both timeouts are
provided and `lock >= statement`, yet `apply_timeouts` raises
`TimeoutWasNotPositive`, not `RedundantLockTimeout` — the positivity check
runs first, so "fails with RedundantLockTimeout exactly when both are
provided and lock >= statement" does not hold. -/
theorem C5_counterexample_nonpositive_beats_redundant :
    (applyTimeouts (some (-5)) (some (-10)) false (fun st0 => (st0, .ok))
        ⟨"1s", "30s", false, true, "0", "0"⟩).result
      = .error .timeoutWasNotPositive ∧
    (some (-5 : Int)).isSome = true ∧ (some (-10 : Int)).isSome = true ∧
    (-10 : Int) ≤ -5 ∧
    (applyTimeouts (some (-5)) (some (-10)) false (fun st0 => (st0, .ok))
        ⟨"1s", "30s", false, true, "0", "0"⟩).result
      ≠ .error .redundantLockTimeout := by
  refine ⟨by decide, rfl, rfl, by norm_num, by decide⟩

/-- CLAIM C5 (amended): `apply_timeouts` validates its inputs before
issuing any database statement (a validation failure returns the original
state with an empty statement trace); it fails with `TimeoutNotProvided`
exactly when neither timeout is given, with `TimeoutWasNotPositive`
exactly when a provided timeout is `≤ 0`, and with `RedundantLockTimeout`
exactly when both are provided, *both positive*, and
`lock_timeout ≥ statement_timeout`; for valid inputs no validation error
is raised. -/
theorem C5_input_validation (l st : Option Int) (cl : Bool)
    (body : DbState → DbState × BodyResult) (s : DbState) :
    ((applyTimeouts l st cl body s).result = .error .timeoutNotProvided
        ↔ (l = none ∧ st = none)) ∧
    ((applyTimeouts l st cl body s).result = .error .timeoutWasNotPositive
        ↔ ((∃ v, l = some v ∧ v ≤ 0) ∨ (∃ v, st = some v ∧ v ≤ 0))) ∧
    ((applyTimeouts l st cl body s).result = .error .redundantLockTimeout
        ↔ (∃ a b, l = some a ∧ st = some b ∧ 0 < a ∧ 0 < b ∧ b ≤ a)) ∧
    (∀ e, validateSpec l st = some e →
        applyTimeouts l st cl body s = ⟨s, [], .error e⟩) := by
  refine ⟨?_, ?_, ?_, fun e hv => applyTimeouts_validation_fail l st cl body s e hv⟩
  · constructor
    · intro h
      cases hv : validateSpec l st with
      | some e =>
          rw [applyTimeouts_validation_fail l st cl body s e hv] at h
          cases h
          exact (validateSpec_notProvided_iff l st).mp hv
      | none => exact absurd h (applyTimeouts_no_validation_error l st cl body s hv).1
    · intro h
      rw [applyTimeouts_validation_fail l st cl body s _
        ((validateSpec_notProvided_iff l st).mpr h)]
  · constructor
    · intro h
      cases hv : validateSpec l st with
      | some e =>
          rw [applyTimeouts_validation_fail l st cl body s e hv] at h
          cases h
          exact (validateSpec_notPositive_iff l st).mp hv
      | none => exact absurd h (applyTimeouts_no_validation_error l st cl body s hv).2.1
    · intro h
      rw [applyTimeouts_validation_fail l st cl body s _
        ((validateSpec_notPositive_iff l st).mpr h)]
  · constructor
    · intro h
      cases hv : validateSpec l st with
      | some e =>
          rw [applyTimeouts_validation_fail l st cl body s e hv] at h
          cases h
          exact (validateSpec_redundant_iff l st).mp hv
      | none => exact absurd h (applyTimeouts_no_validation_error l st cl body s hv).2.2
    · intro h
      rw [applyTimeouts_validation_fail l st cl body s _
        ((validateSpec_redundant_iff l st).mpr h)]

/-- Witness for C5's amended theorem: with only a `-3ms` lock timeout the
result is `TimeoutWasNotPositive`, derived through the characterization. -/
theorem C5_witness :
    (applyTimeouts (some (-3)) none false (fun st0 => (st0, .ok))
        ⟨"1s", "30s", false, true, "0", "0"⟩).result
      = .error .timeoutWasNotPositive :=
  ((C5_input_validation (some (-3)) none false (fun st0 => (st0, .ok))
      ⟨"1s", "30s", false, true, "0", "0"⟩).2.1).mpr
    (Or.inl ⟨-3, rfl, by norm_num⟩)

/-- Reduction of `apply_timeouts` along the session-scope path when the
protected region does not leak a transaction: the stored previous values
are restored and the body's outcome is classified. -/
theorem applyTimeouts_session_no_leak (l st : Option Int) (cl : Bool)
    (body : DbState → DbState × BodyResult) (s s1 : DbState) (res : BodyResult)
    (hv : validateSpec l st = none)
    (hA : s.inAtomicBlock = false)
    (hb : body (setCurrent l st s) = (s1, res))
    (hleak : s1.inAtomicBlock = false) :
    applyTimeouts l st cl body s =
      ⟨resetState (l.map fun _ => s.lockTimeout) (st.map fun _ => s.statementTimeout) s1,
       setupTrace .session l st
         ++ resetTrace .session (l.map fun _ => s.lockTimeout)
              (st.map fun _ => s.statementTimeout),
       classifyBody res⟩ := by
  unfold applyTimeouts
  rw [hv]
  simp only [hA, Bool.false_eq_true, if_false, hb, hleak]

/-- A concrete connection state used by witnesses and counterexamples:
session lock timeout `1s`, statement timeout `30s`, autocommit on. -/
def dbS0 : DbState := ⟨"1s", "30s", false, true, "0", "0"⟩

/-- A protected region that leaks an open transaction (the schema-editor
leak scenario the source documents): it returns successfully but leaves
the connection inside an atomic block. -/
def leakyBody : DbState → DbState × BodyResult :=
  fun st0 => ({ st0 with inAtomicBlock := true }, .ok)

/-- CLAIM C4 (as stated) is false on the code in the leaked-transaction
corner: if the wrapped code exits with the connection inside an aborted or
open transaction and `close_transaction_leak=False`, the session-scope
cleanup raises `UnsupportedTimeoutBehaviour` *without* resetting the
overridden timeouts — the session keeps the override (`5ms` here, not the
previous `1s`), so "on every exit ... the values ... are reset" does not
hold. -/
theorem C4_counterexample_leak_skips_reset :
    dbS0.inAtomicBlock = false ∧
    dbS0.lockTimeout = "1s" ∧
    (applyTimeouts (some 5) none false leakyBody dbS0).result
      = .error .unsupportedTimeoutBehaviour ∧
    (applyTimeouts (some 5) none false leakyBody dbS0).state.lockTimeout = "5ms" := by
  refine ⟨rfl, rfl, by decide, by decide⟩

/-- CLAIM C4 (amended): whenever `apply_timeouts` runs in session scope
(not inside a transaction) with valid inputs, and the wrapped code does
not leak an open transaction, then on every exit of the protected region —
success or failure alike — each timeout that was overridden is reset to
the exact previous value read via `SHOW` before the override.  Since the
starting state `s` is arbitrary, a nested call restores the
immediately-enclosing value (the one its enclosing call installed), not a
default.  (If a transaction *is* leaked, the controller instead raises
`UnsupportedTimeoutBehaviour` without resetting, or — with
`close_transaction_leak=True` on an unusable connection — reconnects and
then resets.) -/
theorem C4_session_scope_restores_previous_values
    (l st : Option Int) (cl : Bool)
    (body : DbState → DbState × BodyResult) (s s1 : DbState) (res : BodyResult)
    (hv : validateSpec l st = none)
    (hA : s.inAtomicBlock = false)
    (hb : body (setCurrent l st s) = (s1, res))
    (hleak : s1.inAtomicBlock = false) :
    (l.isSome = true →
      (applyTimeouts l st cl body s).state.lockTimeout = s.lockTimeout) ∧
    (st.isSome = true →
      (applyTimeouts l st cl body s).state.statementTimeout = s.statementTimeout) ∧
    (applyTimeouts l st cl body s).result = classifyBody res := by
  rw [applyTimeouts_session_no_leak l st cl body s s1 res hv hA hb hleak]
  refine ⟨?_, ?_, rfl⟩
  · intro hl
    cases l with
    | none => cases hl
    | some v => simp [resetState]
  · intro hst
    cases st with
    | none => cases hst
    | some v => simp [resetState]

/-- Witness for C4's amended theorem: both timeouts overridden around a
failing body; both come back to the entry values `1s`/`30s`. -/
theorem C4_witness :
    (applyTimeouts (some 5) (some 10) false
        (fun st0 => (st0, BodyResult.opError "boom")) dbS0).state.lockTimeout
      = dbS0.lockTimeout ∧
    (applyTimeouts (some 5) (some 10) false
        (fun st0 => (st0, BodyResult.opError "boom")) dbS0).state.statementTimeout
      = dbS0.statementTimeout := by
  have h := C4_session_scope_restores_previous_values (some 5) (some 10) false
    (fun st0 => (st0, BodyResult.opError "boom"))
    dbS0 (setCurrent (some 5) (some 10) dbS0) (BodyResult.opError "boom")
    (by decide) rfl rfl rfl
  exact ⟨h.1 rfl, h.2.1 rfl⟩

/-- Auxiliary: if the first `n` attempts hit lock timeouts (all retried)
and attempt `n` hits a statement timeout, the loop stops at once with the
fatal statement-timeout error after `n + 1` attempts. -/
theorem runLoop_lock_prefix_then_stmt (f : Nat → AttemptOutcome) (k : Nat) :
    ∀ (n r a : Nat), (∀ i, i < n → f (r + i) = AttemptOutcome.lockTimeout) →
      f (r + n) = AttemptOutcome.stmtTimeout → canMigrate r k = true →
      (r + n ≤ k ∨ n = 0) →
      runLoop f k r a = (.fatalStmtTimeout, a + n + 1) := by
  intro n
  induction n with
  | zero =>
      intro r a _ hstmt hcm _
      rw [runLoop, dif_pos hcm]
      have hr : f r = AttemptOutcome.stmtTimeout := by simpa using hstmt
      rw [hr]
  | succ n ih =>
      intro r a hlock hstmt hcm hd
      rw [runLoop, dif_pos hcm]
      have h0 : f r = AttemptOutcome.lockTimeout := by
        have h := hlock 0 (Nat.succ_pos n)
        simpa using h
      rw [h0]
      have hrk : r + (n + 1) ≤ k := by
        rcases hd with h | h
        · exact h
        · omega
      have ih' := ih (r + 1) (a + 1)
        (fun i hi => by
          have hadd : r + 1 + i = r + (i + 1) := by omega
          rw [hadd]
          exact hlock (i + 1) (by omega))
        (by
          have hadd : r + 1 + n = r + (n + 1) := by omega
          rw [hadd]
          exact hstmt)
        (by
          simp only [canMigrate, beq_iff_eq]
          rw [if_neg (by omega)]
          simp only [decide_eq_true_eq]
          omega)
        (Or.inl (by omega))
      rw [ih']
      have hadd : a + 1 + n + 1 = a + (n + 1) + 1 := by omega
      rw [hadd]

/-- CLAIM C6 (confirmed): inside `apply_timeouts` (session scope, valid
inputs, no leaked transaction) an `OperationalError` whose text names the
lock timeout is re-raised as `DBLockTimeoutError`, one naming the
statement timeout as `DBStatementTimeoutError` — both subtypes of the
common `DBTimeoutError` — while any other operational error is re-raised
unchanged and any non-operational exception propagates unchanged; and the
retrying runner retries only lock-timeout failures: after any run of
retried lock timeouts, a statement-timeout failure stops the loop at once
(no further attempt) with the fatal error. -/
theorem C6_classification_and_fatal_statement_timeout :
    (∀ (l st : Option Int) (cl : Bool) (body : DbState → DbState × BodyResult)
       (s s1 : DbState) (m : String),
        validateSpec l st = none → s.inAtomicBlock = false →
        body (setCurrent l st s) = (s1, .opError m) → s1.inAtomicBlock = false →
        ((strContains m lockTimeoutText = true →
            (applyTimeouts l st cl body s).result = .error .dbLockTimeout) ∧
         (strContains m lockTimeoutText = false →
          strContains m statementTimeoutText = true →
            (applyTimeouts l st cl body s).result = .error .dbStatementTimeout) ∧
         (strContains m lockTimeoutText = false →
          strContains m statementTimeoutText = false →
            (applyTimeouts l st cl body s).result = .error (.operational m)))) ∧
    (∀ (l st : Option Int) (cl : Bool) (body : DbState → DbState × BodyResult)
       (s s1 : DbState) (tag : String),
        validateSpec l st = none → s.inAtomicBlock = false →
        body (setCurrent l st s) = (s1, .exn tag) → s1.inAtomicBlock = false →
        (applyTimeouts l st cl body s).result = .error (.otherError tag)) ∧
    TErr.isDBTimeoutError .dbLockTimeout = true ∧
    TErr.isDBTimeoutError .dbStatementTimeout = true ∧
    (∀ m, TErr.isDBTimeoutError (.operational m) = false) ∧
    (∀ (f : Nat → AttemptOutcome) (k n : Nat),
        (n = 0 ∨ n ≤ k) →
        (∀ i, i < n → f i = AttemptOutcome.lockTimeout) →
        f n = AttemptOutcome.stmtTimeout →
        runLoop f k 0 0 = (.fatalStmtTimeout, n + 1)) := by
  refine ⟨?_, ?_, rfl, rfl, fun m => rfl, ?_⟩
  · intro l st cl body s s1 m hv hA hb hleak
    have h := applyTimeouts_session_no_leak l st cl body s s1
      (.opError m) hv hA hb hleak
    refine ⟨?_, ?_, ?_⟩
    · intro hlk
      rw [h]
      simp [classifyBody, hlk]
    · intro hlk hstm
      rw [h]
      simp [classifyBody, hlk, hstm]
    · intro hlk hstm
      rw [h]
      simp [classifyBody, hlk, hstm]
  · intro l st cl body s s1 tag hv hA hb hleak
    have h := applyTimeouts_session_no_leak l st cl body s s1
      (.exn tag) hv hA hb hleak
    rw [h]
    simp [classifyBody]
  · intro f k n hd hlock hstmt
    have h := runLoop_lock_prefix_then_stmt f k n 0 0
      (fun i hi => by simpa using hlock i hi)
      (by simpa using hstmt)
      (by simp [canMigrate])
      (by omega)
    simpa using h

/-- Witness for C6: a body failing with the literal lock-timeout message is
re-raised as `DBLockTimeoutError`, and a runner whose first attempt hits a
statement timeout stops after exactly one attempt. -/
theorem C6_witness :
    (applyTimeouts (some 5) none false
        (fun st0 => (st0, BodyResult.opError lockTimeoutText)) dbS0).result
      = .error .dbLockTimeout ∧
    runLoop (fun _ => AttemptOutcome.stmtTimeout) 3 0 0
      = (.fatalStmtTimeout, 1) := by
  constructor
  · exact (C6_classification_and_fatal_statement_timeout.1 (some 5) none false
      (fun st0 => (st0, BodyResult.opError lockTimeoutText)) dbS0
      (setCurrent (some 5) none dbS0) lockTimeoutText
      (by decide) rfl rfl rfl).1 (by decide)
  · exact C6_classification_and_fatal_statement_timeout.2.2.2.2.2
      (fun _ => AttemptOutcome.stmtTimeout) 3 0 (Or.inl rfl)
      (fun i hi => absurd hi (Nat.not_lt_zero i)) rfl

/-! ## Claim C3: the identifier builder -/

set_option maxRecDepth 10000

theorem byteHex_length (b : Nat) : (Md5.byteHex b).length = 2 := rfl

theorem flatten_map_byteHex_length (l : List Nat) :
    ((l.map Md5.byteHex).flatten).length = 2 * l.length := by
  induction l with
  | nil => rfl
  | cons b t ih =>
      simp only [List.map_cons, List.flatten_cons, List.length_append,
        byteHex_length, ih, List.length_cons]
      omega

theorem md5Bytes_length (msg : List Nat) : (Md5.md5Bytes msg).length = 16 := by
  unfold Md5.md5Bytes
  rcases Md5.md5Words msg with ⟨a, b, c, d⟩
  simp [Md5.wordLE]

theorem hexdigest_length (msg : List Nat) : (Md5.hexdigest msg).length = 32 := by
  simp only [Md5.hexdigest, String.length]
  rw [flatten_map_byteHex_length, md5Bytes_length]

/-- The appended content hash is always exactly 8 characters. -/
theorem md5hex8_length (s : String) : (md5hex8 s).length = 8 := by
  have h := hexdigest_length (strBytes s)
  simp only [String.length] at h
  simp only [md5hex8, String.length, List.length_take, h]
  decide

/-- Short case: a join of at most 63 characters is returned unchanged. -/
theorem build_identifier_short (items : List String) (suffix : String)
    (h : (joinedName items suffix).length ≤ 63) :
    build_postgres_identifier items suffix = joinedName items suffix := by
  unfold build_postgres_identifier
  rw [if_pos (by simpa [MAX_POSTGRES_IDENTIFIER_LEN] using h)]

/-- Long case (suffix short enough for a non-negative truncation budget):
the output is the join's prefix of `63 - (len(suffix) + 10)` characters,
an underscore, the 8-hex-character hash of the full join, an underscore,
and the suffix — and its length is exactly 63 characters. -/
theorem build_identifier_long (items : List String) (suffix : String)
    (h : 63 < (joinedName items suffix).length) (hs : suffix.length ≤ 53) :
    build_postgres_identifier items suffix
      = String.mk ((joinedName items suffix).data.take (63 - (suffix.length + 10)))
          ++ "_" ++ md5hex8 (joinedName items suffix) ++ "_" ++ suffix ∧
    (build_postgres_identifier items suffix).length = 63 := by
  have hneg : ¬ ((MAX_POSTGRES_IDENTIFIER_LEN : Int)
      - ((suffix.length : Int) + 8 + 2) < 0) := by
    simp only [MAX_POSTGRES_IDENTIFIER_LEN]
    omega
  have htoNat : ((MAX_POSTGRES_IDENTIFIER_LEN : Int)
      - ((suffix.length : Int) + 8 + 2)).toNat = 63 - (suffix.length + 10) := by
    simp only [MAX_POSTGRES_IDENTIFIER_LEN]
    omega
  have hmain : build_postgres_identifier items suffix
      = String.mk ((joinedName items suffix).data.take (63 - (suffix.length + 10)))
          ++ "_" ++ md5hex8 (joinedName items suffix) ++ "_" ++ suffix := by
    unfold build_postgres_identifier
    rw [if_neg (by simp only [MAX_POSTGRES_IDENTIFIER_LEN]; omega)]
    simp only [pyTake, if_neg hneg, htoNat]
  refine ⟨hmain, ?_⟩
  rw [hmain]
  simp only [String.length_append, md5hex8_length]
  have htk : (String.mk ((joinedName items suffix).data.take
      (63 - (suffix.length + 10)))).length = 63 - (suffix.length + 10) := by
    have hdl : 63 < (joinedName items suffix).data.length := h
    simp only [String.length, List.length_take]
    omega
  rw [htk]
  have hone : ("_" : String).length = 1 := rfl
  rw [hone]
  omega

/-- Collision resistance of the long case: for the same suffix, two
over-long joins whose 8-hex hashes differ produce different outputs (the
truncated prefixes have the same length, so the hash fields line up). -/
theorem build_identifier_long_injective (i1 i2 : List String) (suffix : String)
    (h1 : 63 < (joinedName i1 suffix).length)
    (h2 : 63 < (joinedName i2 suffix).length)
    (hs : suffix.length ≤ 53)
    (hh : md5hex8 (joinedName i1 suffix) ≠ md5hex8 (joinedName i2 suffix)) :
    build_postgres_identifier i1 suffix ≠ build_postgres_identifier i2 suffix := by
  intro heq
  rw [(build_identifier_long i1 suffix h1 hs).1,
      (build_identifier_long i2 suffix h2 hs).1] at heq
  have hd := congrArg String.data heq
  have hmk : ∀ l : List Char, (String.mk l).data = l := fun _ => rfl
  have hu : ("_" : String).data = ['_'] := rfl
  simp only [String.data_append, hmk, hu, List.append_assoc,
    List.singleton_append] at hd
  have hlen : ((joinedName i1 suffix).data.take (63 - (suffix.length + 10))).length
      = ((joinedName i2 suffix).data.take (63 - (suffix.length + 10))).length := by
    have hd1 : (joinedName i1 suffix).data.length = (joinedName i1 suffix).length := rfl
    have hd2 : (joinedName i2 suffix).data.length = (joinedName i2 suffix).length := rfl
    simp only [List.length_take, hd1, hd2]
    omega
  obtain ⟨-, htail⟩ := List.append_inj hd hlen
  have htail2 : (md5hex8 (joinedName i1 suffix)).data ++ '_' :: suffix.data
      = (md5hex8 (joinedName i2 suffix)).data ++ '_' :: suffix.data := by
    injection htail
  have hlh : (md5hex8 (joinedName i1 suffix)).data.length
      = (md5hex8 (joinedName i2 suffix)).data.length := by
    have e1 : (md5hex8 (joinedName i1 suffix)).data.length
        = (md5hex8 (joinedName i1 suffix)).length := rfl
    have e2 : (md5hex8 (joinedName i2 suffix)).data.length
        = (md5hex8 (joinedName i2 suffix)).length := rfl
    rw [e1, e2, md5hex8_length, md5hex8_length]
  obtain ⟨hhd, -⟩ := List.append_inj htail2 hlh
  exact hh (String.ext hhd)

/-- CLAIM C3 (as stated) is false on the code, at two explicit inputs.
First, the output *can* exceed 63 characters/bytes: with a 60-character
suffix the truncation budget `63 - (len(suffix) + 8 + 2)` is `-7`, and
Python's negative slice `base_name[:-7]` keeps all but the last 7
characters of the join instead of truncating it, so the result has 134
characters.  Second, two *different* over-long inputs sharing a
truncation-prefix can yield the *same* output: the hash field keeps only
8 hex characters (32 bits) of the md5 digest, and the two 64-character
joins below — identical in their first 47 characters, the truncation
length for the 6-character suffix `suffix` — have digests
`f7571d74cdd97a2f...` and `f7571d742c1496ae...`, agreeing on the first 8
hex characters, so both inputs build the identical 63-character
identifier. -/
theorem C3_counterexample_bound_and_collision :
    (63 < (joinedName [String.mk (List.replicate 10 'a')]
        (String.mk (List.replicate 60 's'))).length ∧
     (build_postgres_identifier [String.mk (List.replicate 10 'a')]
        (String.mk (List.replicate 60 's'))).length = 134) ∧
    ([String.mk (List.replicate 47 'a') ++ "0000039989"]
        ≠ [String.mk (List.replicate 47 'a') ++ "0000149972"] ∧
     63 < (joinedName [String.mk (List.replicate 47 'a') ++ "0000039989"]
        "suffix").length ∧
     63 < (joinedName [String.mk (List.replicate 47 'a') ++ "0000149972"]
        "suffix").length ∧
     (joinedName [String.mk (List.replicate 47 'a') ++ "0000039989"]
        "suffix").data.take (63 - ("suffix".length + 10))
       = (joinedName [String.mk (List.replicate 47 'a') ++ "0000149972"]
        "suffix").data.take (63 - ("suffix".length + 10)) ∧
     build_postgres_identifier
        [String.mk (List.replicate 47 'a') ++ "0000039989"] "suffix"
       = build_postgres_identifier
        [String.mk (List.replicate 47 'a') ++ "0000149972"] "suffix") := by
  refine ⟨⟨by decide, by decide⟩, by decide, by decide, by decide, by decide, by decide⟩

/-- CLAIM C3 (amended): `build_postgres_identifier` is a pure function
(determinism is definitional); on ASCII inputs, measuring characters (=
bytes for ASCII): a join of at most 63 characters is returned unchanged;
when the join is longer *and* the suffix keeps the truncation budget
non-negative (`len(suffix) ≤ 53`), the output is the join's prefix of
`63 - (len(suffix) + 8 + 2)` characters, `_`, the 8-hex-character md5 hash
of the full un-truncated join, `_`, and the suffix — exactly 63 characters,
so never exceeding 63; and two over-long inputs with the same suffix yield
different outputs *whenever their 8-hex hashes differ*.  (Both provisos are
forced by the counterexample: with a suffix longer than 53 characters the
budget goes negative and the bound fails, and the counterexample's
colliding pair shows the unconditional no-collision claim false — the
8-hex hash field is only 32 bits, so distinct prefix-sharing inputs with
colliding hash prefixes produce the identical output.) -/
theorem C3_identifier_builder
    (items i1 i2 : List String) (suffix : String) :
    ((joinedName items suffix).length ≤ 63 →
      build_postgres_identifier items suffix = joinedName items suffix) ∧
    (63 < (joinedName items suffix).length → suffix.length ≤ 53 →
      build_postgres_identifier items suffix
        = String.mk ((joinedName items suffix).data.take (63 - (suffix.length + 10)))
            ++ "_" ++ md5hex8 (joinedName items suffix) ++ "_" ++ suffix ∧
      (build_postgres_identifier items suffix).length = 63) ∧
    (63 < (joinedName i1 suffix).length → 63 < (joinedName i2 suffix).length →
      suffix.length ≤ 53 →
      md5hex8 (joinedName i1 suffix) ≠ md5hex8 (joinedName i2 suffix) →
      build_postgres_identifier i1 suffix ≠ build_postgres_identifier i2 suffix) :=
  ⟨build_identifier_short items suffix,
   fun h hs => build_identifier_long items suffix h hs,
   fun h1 h2 hs hh => build_identifier_long_injective i1 i2 suffix h1 h2 hs hh⟩

/-- Witness for C3's amended theorem at the repository's own test vector:
`["a"*32, "b"*32]` with suffix `"suffix"` truncates to 63 characters with
hash `bbeb3ff7`, and differs from the output for `["a"*32, "c"*32]`. -/
theorem C3_witness :
    (build_postgres_identifier
        [String.mk (List.replicate 32 'a'), String.mk (List.replicate 32 'b')]
        "suffix").length = 63 ∧
    build_postgres_identifier
        [String.mk (List.replicate 32 'a'), String.mk (List.replicate 32 'b')] "suffix"
      ≠ build_postgres_identifier
        [String.mk (List.replicate 32 'a'), String.mk (List.replicate 32 'c')] "suffix" := by
  constructor
  · exact ((C3_identifier_builder
      [String.mk (List.replicate 32 'a'), String.mk (List.replicate 32 'b')] [] []
      "suffix").2.1 (by decide) (by decide)).2
  · exact (C3_identifier_builder []
      [String.mk (List.replicate 32 'a'), String.mk (List.replicate 32 'b')]
      [String.mk (List.replicate 32 'a'), String.mk (List.replicate 32 'c')]
      "suffix").2.2 (by decide) (by decide) (by decide) (by decide)
